import Mathlib

/-!
Shallow embedding of the acunetix-report-notification workflow
(src/main.py, src/scan_processor.py, src/packages/api_client.py,
src/models.py) and proofs of the specified properties.

External effects (HTTP transport, clock, filesystem writes) are
abstracted as explicit oracles/state; all pure control flow is
translated statement-by-statement from the Python source.
-/

namespace Acunetix

/-- A JSON-like value, modelling the Python dicts/lists/strings the
API client returns.  Objects are association lists with unique keys
(Python dict semantics). -/
inductive Json where
  | str (s : String)
  | num (n : Int)
  | bool (b : Bool)
  | null
  | arr (xs : List Json)
  | obj (fields : List (String × Json))

/-- Python dict lookup `d.get(k)` on an association list. -/
def getField (fields : List (String × Json)) (k : String) : Option Json :=
  (fields.find? (fun p => p.1 = k)).map (fun p => p.2)

/-- Python truthiness of a JSON value (`if not x`): empty string,
zero, False, None, empty list and empty dict are falsy. -/
def Json.truthy : Json → Bool
  | .str s => s ≠ ""
  | .num n => n ≠ 0
  | .bool b => b
  | .null => false
  | .arr xs => ¬ xs.isEmpty
  | .obj fs => ¬ fs.isEmpty

/-! ## String helpers (Python `str.rstrip('/')`, `str.lstrip('/')`,
`str.startswith`, `str.endswith` and slicing, modelled character by
character). -/

/-- Python `s.rstrip(c)` for a single character: drop every trailing `c`. -/
def rstripChar (c : Char) (s : String) : String :=
  ⟨(s.data.reverse.dropWhile (fun d => d = c)).reverse⟩

/-- Python `s.lstrip(c)` for a single character: drop every leading `c`. -/
def lstripChar (c : Char) (s : String) : String :=
  ⟨s.data.dropWhile (fun d => d = c)⟩

/-- Whether the first character list starts with the second. -/
def charsStartWith : List Char → List Char → Bool
  | _, [] => true
  | [], _ :: _ => false
  | c :: s, d :: p => c = d && charsStartWith s p

/-- Python `s.startswith(p)`. -/
def strStartsWith (s p : String) : Bool :=
  charsStartWith s.data p.data

/-- Python `s.endswith(p)`. -/
def strEndsWith (s p : String) : Bool :=
  charsStartWith s.data.reverse p.data.reverse

/-- Python `s[:-n]` for `n > 0`: drop the last `n` characters. -/
def strDropRight (s : String) (n : Nat) : String :=
  ⟨s.data.take (s.data.length - n)⟩

/-- Python `s[n:]`: drop the first `n` characters. -/
def strDrop (s : String) (n : Nat) : String :=
  ⟨s.data.drop n⟩

/-! ## `AcunetixAPI.download_report` URL construction
(src/packages/api_client.py lines 218-242). -/

/-- The download-URL construction performed by
`AcunetixAPI.download_report` before issuing the GET request:
an absolute URL is used as-is; otherwise the suffix is normalized,
a trailing `/api/v1` is removed from the configured base URL, a
leading `/api/v1` is removed from the suffix, and the two are joined
around a single `/api/v1/` segment. -/
def constructDownloadUrl (configUrl : String) (urlSuffix : String) : String :=
  if strStartsWith urlSuffix "http://" || strStartsWith urlSuffix "https://" then
    urlSuffix
  else
    let s := if strStartsWith urlSuffix "/" then urlSuffix else "/" ++ urlSuffix
    let base := rstripChar '/' configUrl
    let base := if strEndsWith base "/api/v1" then strDropRight base 7 else base
    let s := if strStartsWith s "/api/v1" then strDrop s 7 else s
    let s := lstripChar '/' s
    base ++ "/api/v1/" ++ s

/-! ## Filename sanitization (src/scan_processor.py line 147). -/

/-- One character of the sanitization comprehension
`c if c.isalnum() or c in ('-', '_', '.') else '_'`. -/
def sanitizeChar (c : Char) : Char :=
  if c.isAlphanum || c = '-' || c = '_' || c = '.' then c else '_'

/-- `safe_name`: the target description with every character that is
neither alphanumeric nor one of `-`, `_`, `.` replaced by `_`. -/
def safeName (targetName : String) : String :=
  ⟨targetName.data.map sanitizeChar⟩

/-! ## Processed-Set store (src/scan_processor.py lines 34-60, 253-262). -/

/-- Observable state of the processed-scans backing file when
`_load_processed_scans` runs. `unreadable` covers any exception while
opening or JSON-decoding the file (corrupt JSON included). -/
inductive StoreFile where
  | absent
  | unreadable
  | stored (ids : List String)
  deriving Repr, DecidableEq

/-- `ScanProcessor._load_processed_scans`: the set the processor holds
after loading.  The field starts as the empty set (`__init__`); an
existing readable file replaces it with the stored array's ids; a
missing file leaves it empty; any exception resets it to empty.
The function is total: no path raises. -/
def loadProcessedScans : StoreFile → Finset String
  | .absent => ∅
  | .unreadable => ∅
  | .stored ids => ids.toFinset

/-- In-memory plus on-disk state of the Processed Set.
`fileContents` is the set last written by `_save_processed_scans`
(`none` while nothing has been saved); `saveCount` counts persistence
writes, so "performs no write" is expressible. -/
structure StoreState where
  processed : Finset String
  fileContents : Option (Finset String)
  saveCount : Nat
  deriving DecidableEq

/-- `ScanProcessor.mark_as_processed` (together with
`_save_processed_scans`): if the id is new, add it to the set and
persist the full set; otherwise do nothing and perform no write. -/
def markAsProcessed (st : StoreState) (scan_id : String) : StoreState :=
  if scan_id ∈ st.processed then st
  else
    let p := insert scan_id st.processed
    { processed := p, fileContents := some p, saveCount := st.saveCount + 1 }

/-! ## Report polling (`ScanProcessor._wait_for_report`,
src/scan_processor.py lines 213-251). -/

/-- One response of `api.get_report_status` as seen by the polling
loop: the call raises `AcunetixAPIError`, returns a falsy value
(`if not report`), or returns a payload whose `.get('status')` is the
given optional string. -/
inductive ReportPoll where
  | apiError
  | noData
  | payload (status : Option String)
  deriving Repr, DecidableEq

/-- Loop body of `_wait_for_report`, structurally recursive on the
remaining attempt budget. `attempt` indexes the poll stream and is the
number of polls already performed; the returned `Nat` is the total
number of polls performed when the loop exits. -/
def waitForReportGo (poll : Nat → ReportPoll) (attempt : Nat) :
    Nat → Option (Option String) × Nat
  | 0 => (none, attempt)
  | fuel + 1 =>
    match poll attempt with
    | .apiError => (none, attempt + 1)
    | .noData => waitForReportGo poll (attempt + 1) fuel
    | .payload st =>
      if st = some "completed" then (some st, attempt + 1)
      else if st = some "failed" ∨ st = some "cancelled" then (none, attempt + 1)
      else waitForReportGo poll (attempt + 1) fuel

/-- `ScanProcessor._wait_for_report` with its poll responses supplied
as a stream: returns the completed report's status payload (or `none`
on failure/exhaustion) together with the number of polls performed. -/
def waitForReport (poll : Nat → ReportPoll) (maxAttempts : Nat := 10) :
    Option (Option String) × Nat :=
  waitForReportGo poll 0 maxAttempts

/-- Poll stream backed by a finite list of responses (further entries
default to a falsy response, which the loop treats as "continue"). -/
def pollsOf (l : List ReportPoll) : Nat → ReportPoll :=
  fun n => l.getD n .noData

/-! ## Download-locator extraction
(`ScanProcessor._generate_scan_report`, src/scan_processor.py
lines 152-172: the `download_url` probing chain). -/

/-- The nested conditional chain that probes the completed report
payload for a download locator, exactly in source order: a string
`download` field; else the first element of a non-empty `download`
list (its `url` field when a dict, itself when a string, nothing
otherwise — the chain then ends without falling through); else a
`download_url` field of any shape; else a `report_id` field; a bare
string payload is itself the locator.  Returns the value assigned to
`download_url` (`none` when it stays `None`). -/
def extractDownloadUrl (report : Json) : Option Json :=
  match report with
  | .obj fields =>
    match getField fields "download" with
    | some (.str s) => some (.str s)
    | some (.arr (item :: _)) =>
      match item with
      | .obj ifields => getField ifields "url"
      | .str s => some (.str s)
      | _ => none
    | _ =>
      match getField fields "download_url" with
      | some v => some v
      | none => getField fields "report_id"
  | .str s => some (.str s)
  | _ => none

/-! ## Per-scan processing (`ScanProcessor._generate_scan_report`,
src/scan_processor.py lines 107-211). -/

/-- The fields of one scan snapshot that `_generate_scan_report`
reads: `scan_data.get('scan_id')`, `.get('target_id')`,
`.get('current_session', \x7b\x7d).get('status')`,
`.get('target', \x7b\x7d).get('description', 'report')` (the default
applied later), and `.get('current_session', \x7b\x7d).get('start_date', '')`. -/
structure ScanData where
  scan_id : Option String
  target_id : Option String
  status : Option String
  description : Option String
  start_date : Option String
  severity_counts : List (String × Int)

/-- The local value object `models.ScanResult` (the fields the engine
fills in). -/
structure ScanResult where
  scan_id : String
  target_id : String
  description : String
  start_date : String
  report_path : String
  severity_counts : List (String × Int)

/-- Oracles for the external collaborators `_generate_scan_report`
calls, one run's worth: the outcome of `api.generate_report`
(a payload dict, or any raised exception), the value
`_wait_for_report` returns for a report id, the success of
`api.download_report` on a locator, and the clock/paths used for the
report filename. -/
structure ScanEnv where
  generateReport : String → Except String (List (String × Json))
  waitedReport : Json → Option Json
  download : Json → String → Bool
  timestamp : String
  reportsDir : String

/-- Observable outcome of `_generate_scan_report`: the optional
`ScanResult`, plus whether `api.generate_report` and
`api.download_report` were invoked. -/
structure GenReportOut where
  result : Option ScanResult
  calledGenerateReport : Bool
  calledDownload : Bool

/-- Python truthiness of an optional string (`if not scan_id`):
falsy when missing or empty. -/
def truthyStr (s : Option String) : Bool :=
  match s with
  | none => false
  | some s => s ≠ ""

/-- `ScanProcessor._generate_scan_report`: validity and eligibility
checks (missing ids, already processed, scheduled, not completed),
then the report pipeline — request generation, take the payload's
`report_id`, wait for the report, extract a truthy download locator,
download — any failure yielding `none`; on success the `ScanResult`
is built with the sanitized-description filename.  The whole pipeline
body sits in a `try` whose handler returns `None`, which the
`Except`-typed oracle models. -/
def generateScanReport (processed : Finset String) (env : ScanEnv)
    (scan : ScanData) : GenReportOut :=
  if ¬ truthyStr scan.scan_id ∨ ¬ truthyStr scan.target_id then
    ⟨none, false, false⟩
  else
    let sid := scan.scan_id.getD ""
    let tid := scan.target_id.getD ""
    if sid ∈ processed then ⟨none, false, false⟩
    else if scan.status = some "scheduled" then ⟨none, false, false⟩
    else if scan.status ≠ some "completed" then ⟨none, false, false⟩
    else
      match env.generateReport tid with
      | .error _ => ⟨none, true, false⟩
      | .ok report_data =>
        match getField report_data "report_id" with
        | none => ⟨none, true, false⟩
        | some rid =>
          if ¬ rid.truthy then ⟨none, true, false⟩
          else
            match env.waitedReport rid with
            | none => ⟨none, true, false⟩
            | some report =>
              if ¬ report.truthy then ⟨none, true, false⟩
              else
              let target_name := scan.description.getD "report"
              let report_path :=
                env.reportsDir ++ "/" ++ safeName target_name ++ "_"
                  ++ env.timestamp ++ ".html"
              match extractDownloadUrl report with
              | none => ⟨none, true, false⟩
              | some url =>
                if ¬ url.truthy then ⟨none, true, false⟩
                else if ¬ env.download url report_path then ⟨none, true, true⟩
                else
                  ⟨some { scan_id := sid, target_id := tid,
                          description := target_name,
                          start_date := scan.start_date.getD "",
                          report_path := report_path,
                          severity_counts := scan.severity_counts },
                    true, true⟩

/-! ## Run-level processing (`ScanProcessor.process_scans`,
src/scan_processor.py lines 264-299) and the commit step of `main`
(src/main.py lines 89-102). -/

/-- `ScanProcessorError`, the run-level error `process_scans` raises
when listing scans fails. -/
structure ScanProcessorError where
  msg : String

/-- `ScanProcessor.process_scans`: fetch all scans (a transport
failure raising `AcunetixAPIError` is re-raised as
`ScanProcessorError` and aborts the run); otherwise process each scan
in order, collecting the successful `ScanResult`s — a scan yielding
no result is simply skipped, and each scan is processed inside its
own exception guard so no scan's failure stops the loop. -/
def processScans (processed : Finset String) (env : ScanEnv)
    (fetchAllScans : Except String (List ScanData)) :
    Except ScanProcessorError (List ScanResult) :=
  match fetchAllScans with
  | .error e => .error ⟨"Failed to process scans: " ++ e⟩
  | .ok scans =>
    .ok (scans.filterMap (fun scan => (generateScanReport processed env scan).result))

/-- The commit step of `main`: when the notification email was sent
successfully, every `ScanResult` in the batch is marked as processed
in order; when it was not, nothing is committed. -/
def commitBatch (st : StoreState) (batch : List ScanResult)
    (emailSent : Bool) : StoreState :=
  if emailSent then
    batch.foldl (fun s r => markAsProcessed s r.scan_id) st
  else st

/-! ## `AcunetixAPI._make_request` / `AcunetixAPI.generate_report`
(src/packages/api_client.py lines 96-132 and 163-184). -/

/-- The exceptions the report-generation path can raise: Python's
`ValueError` and the client's `AcunetixAPIError`. -/
inductive PyExn where
  | valueError (msg : String)
  | acunetixAPIError (msg : String)

/-- Outcome of one HTTP attempt inside `_make_request`: the request
succeeds with a parsed JSON-object body, or raises a
`RequestException` with the given message. -/
inductive AttemptOutcome where
  | success (body : List (String × Json))
  | failure (msg : String)

/-- The retry loop of `_make_request`
(`for attempt in range(self.config.max_retries + 1)`): return the
first successful attempt's body; when every attempt fails, raise
`AcunetixAPIError` carrying the last underlying cause.  `total` is
`max_retries + 1` (used in the final message), `attempt` the current
attempt index, the final `Nat` the attempts remaining. -/
def makeRequestGo (attempts : Nat → AttemptOutcome) (total : Nat) :
    String → Nat → Nat → Except PyExn (List (String × Json))
  | lastMsg, _, 0 =>
    .error (.acunetixAPIError
      ("API request failed after " ++ toString total ++ " attempts: " ++ lastMsg))
  | _, attempt, fuel + 1 =>
    match attempts attempt with
    | .success body => .ok body
    | .failure msg => makeRequestGo attempts total msg (attempt + 1) fuel

/-- `AcunetixAPI._make_request`: try `max_retries + 1` attempts
(`last_exception` starts as `None`, so the never-taken zero-attempt
message would carry `"None"`). -/
def makeRequest (attempts : Nat → AttemptOutcome) (maxRetries : Nat) :
    Except PyExn (List (String × Json)) :=
  makeRequestGo attempts (maxRetries + 1) "None" 0 (maxRetries + 1)

/-- `AcunetixAPI.generate_report`: an empty (falsy) `target_id`
raises `ValueError("target_id cannot be empty")`; otherwise the
request is issued through `_make_request`, whose attempt outcomes are
the `attempts` stream. -/
def generate_report (attempts : Nat → AttemptOutcome) (maxRetries : Nat)
    (target_id : String) : Except PyExn (List (String × Json)) :=
  if target_id = "" then .error (.valueError "target_id cannot be empty")
  else makeRequest attempts maxRetries

/-- Whether a `generate_report` outcome is the spec's
`RemoteServiceError`, i.e. a raised `AcunetixAPIError`. -/
def isRemoteServiceError : Except PyExn (List (String × Json)) → Bool
  | .error (.acunetixAPIError _) => true
  | _ => false

/-! ## Helper lemmas -/

lemma sanitizeChar_ne_slash (c : Char) : sanitizeChar c ≠ '/' := by
  unfold sanitizeChar
  by_cases h : (c.isAlphanum || c = '-' || c = '_' || c = '.') = true
  · rw [if_pos h]
    intro hc
    subst hc
    exact absurd h (by decide)
  · rw [if_neg h]
    decide

lemma sanitizeChar_ne_backslash (c : Char) : sanitizeChar c ≠ '\\' := by
  unfold sanitizeChar
  by_cases h : (c.isAlphanum || c = '-' || c = '_' || c = '.') = true
  · rw [if_pos h]
    intro hc
    subst hc
    exact absurd h (by decide)
  · rw [if_neg h]
    decide

lemma markAsProcessed_processed (st : StoreState) (id : String) :
    (markAsProcessed st id).processed = insert id st.processed := by
  unfold markAsProcessed
  split
  · exact (Finset.insert_eq_self.mpr (by assumption)).symm
  · rfl

/-! ## Claim theorems -/

/-- C4: download-locator normalization in
`AcunetixAPI.download_report`: an absolute URL (any `http://` or
`https://` locator) is used as-is for every base URL; for base URL
`"https://host/api/v1/"`, both the relative locator
`"reports/abc/download"` and the already-versioned locator
`"/api/v1/reports/abc/download"` resolve to exactly
`"https://host/api/v1/reports/abc/download"`, with no duplicated
`/api/v1/` segment. -/
theorem c4_download_locator_normalization :
    (∀ base u : String,
      (strStartsWith u "http://" = true ∨ strStartsWith u "https://" = true) →
      constructDownloadUrl base u = u) ∧
    constructDownloadUrl "https://host/api/v1/" "reports/abc/download"
      = "https://host/api/v1/reports/abc/download" ∧
    constructDownloadUrl "https://host/api/v1/" "/api/v1/reports/abc/download"
      = "https://host/api/v1/reports/abc/download" := by
  refine ⟨?_, by rfl, by rfl⟩
  intro base u h
  rcases h with h | h <;> simp [constructDownloadUrl, h]

/-- Witness for C4 at concrete inputs: the absolute locator
`"https://other/x"` is used as-is. -/
theorem c4_witness :
    constructDownloadUrl "https://host/api/v1/" "https://other/x"
      = "https://other/x" :=
  c4_download_locator_normalization.1 "https://host/api/v1/" "https://other/x"
    (Or.inr (by decide))

/-- C6: filename sanitization replaces every character that is not
alphanumeric and not one of `-`, `_`, `.` with `_`: the description
`"My App: v2 (staging)"` sanitizes to `"My_App__v2__staging_"`, and
for every input the sanitized name contains no path separator
(`/` or `\`). -/
theorem c6_filename_sanitization :
    safeName "My App: v2 (staging)" = "My_App__v2__staging_" ∧
    ∀ s : String, '/' ∉ (safeName s).data ∧ '\\' ∉ (safeName s).data := by
  refine ⟨by rfl, ?_⟩
  intro s
  constructor
  · intro hmem
    obtain ⟨c, -, hc⟩ := List.mem_map.mp hmem
    exact sanitizeChar_ne_slash c hc
  · intro hmem
    obtain ⟨c, -, hc⟩ := List.mem_map.mp hmem
    exact sanitizeChar_ne_backslash c hc

/-- C7: loading the Processed Set never fails the run: it is a total
function yielding the empty set when the file is absent or
unreadable (corrupt JSON included), and the set of stored ids
otherwise. -/
theorem c7_load_never_fails :
    loadProcessedScans .absent = ∅ ∧
    loadProcessedScans .unreadable = ∅ ∧
    ∀ ids : List String, loadProcessedScans (.stored ids) = ids.toFinset :=
  ⟨rfl, rfl, fun _ => rfl⟩

/-- C10: `mark_as_processed` is idempotent: marking an id already in
the Processed Set leaves the whole store state (set, file contents
and write count) unchanged, and marking twice equals marking once. -/
theorem c10_mark_idempotent :
    (∀ (st : StoreState) (id : String), id ∈ st.processed →
      markAsProcessed st id = st) ∧
    (∀ (st : StoreState) (id : String),
      markAsProcessed (markAsProcessed st id) id = markAsProcessed st id) := by
  constructor
  · intro st id h
    simp [markAsProcessed, h]
  · intro st id
    by_cases h : id ∈ st.processed
    · simp [markAsProcessed, h]
    · simp [markAsProcessed, h]

/-- Witness for C10 at a concrete store state. -/
theorem c10_witness :
    markAsProcessed ⟨{"a"}, none, 0⟩ "a" = ⟨{"a"}, none, 0⟩ ∧
    markAsProcessed (markAsProcessed ⟨{"a"}, none, 0⟩ "b") "b"
      = markAsProcessed ⟨{"a"}, none, 0⟩ "b" :=
  ⟨c10_mark_idempotent.1 ⟨{"a"}, none, 0⟩ "a" (Finset.mem_singleton_self "a"),
   c10_mark_idempotent.2 ⟨{"a"}, none, 0⟩ "b"⟩

lemma waitForReportGo_shift (poll : Nat → ReportPoll) :
    ∀ (fuel attempt : Nat),
    waitForReportGo poll (attempt + 1) fuel
      = ((waitForReportGo (fun i => poll (i + 1)) attempt fuel).1,
         (waitForReportGo (fun i => poll (i + 1)) attempt fuel).2 + 1) := by
  intro fuel
  induction fuel with
  | zero => intro attempt; rfl
  | succ n ih =>
    intro attempt
    show waitForReportGo poll (attempt + 1) (n + 1) = _
    unfold waitForReportGo
    cases h : poll (attempt + 1) with
    | apiError => simp [h]
    | noData => simpa [h] using ih (attempt + 1)
    | payload st =>
      by_cases hc : st = some "completed"
      · simp [h, hc]
      · by_cases hf : st = some "failed" ∨ st = some "cancelled"
        · simp [h, hc, hf]
        · simpa [h, hc, hf] using ih (attempt + 1)

/-- C3: report polling (`_wait_for_report`, 10 attempts): the status
sequence `[running, running, completed]` terminates successfully
after exactly 3 polls, returning the report; ten `running` responses
terminate unsuccessfully (no report) after exactly 10 polls, without
raising; a first response of `failed` or `cancelled` ends the wait
immediately (one poll, no report); and any other first response
(an empty response, or any non-terminal status) continues polling:
the outcome is that of the remaining stream with one fewer attempt,
with one more poll counted. -/
theorem c3_report_polling :
    waitForReport (pollsOf [.payload (some "running"),
      .payload (some "running"), .payload (some "completed")]) 10
      = (some (some "completed"), 3) ∧
    waitForReport (fun _ => .payload (some "running")) 10 = (none, 10) ∧
    (∀ (poll : Nat → ReportPoll) (max : Nat),
      poll 0 = .payload (some "failed") →
      waitForReport poll (max + 1) = (none, 1)) ∧
    (∀ (poll : Nat → ReportPoll) (max : Nat),
      poll 0 = .payload (some "cancelled") →
      waitForReport poll (max + 1) = (none, 1)) ∧
    (∀ (poll : Nat → ReportPoll) (max : Nat) (st : Option String),
      (poll 0 = .noData ∨
        (poll 0 = .payload st ∧ st ≠ some "completed" ∧
         st ≠ some "failed" ∧ st ≠ some "cancelled")) →
      waitForReport poll (max + 1)
        = ((waitForReport (fun i => poll (i + 1)) max).1,
           (waitForReport (fun i => poll (i + 1)) max).2 + 1)) := by
  refine ⟨by rfl, by rfl, ?_, ?_, ?_⟩
  · intro poll max h
    unfold waitForReport waitForReportGo
    simp [h]
  · intro poll max h
    unfold waitForReport waitForReportGo
    simp [h]
  · intro poll max st h
    show waitForReportGo poll 0 (max + 1) = _
    conv_lhs => unfold waitForReportGo
    rcases h with h | ⟨h, hc, hf, hx⟩
    · simp only [h]
      exact waitForReportGo_shift poll max 0
    · simp only [h]
      rw [if_neg hc, if_neg (not_or.mpr ⟨hf, hx⟩)]
      exact waitForReportGo_shift poll max 0

/-- A concrete environment for witnesses: report generation succeeds
with report id `r1`, the awaited report carries a string `download`
locator, and downloads succeed. -/
def sampleEnv : ScanEnv where
  generateReport := fun _ => .ok [("report_id", .str "r1")]
  waitedReport := fun _ => some (.obj [("status", .str "completed"),
    ("download", .str "https://host/api/v1/reports/r1/download")])
  download := fun _ _ => true
  timestamp := "20240101_120000"
  reportsDir := "reports"

/-- Like `sampleEnv`, but the awaited report payload offers no
download locator of any shape. -/
def sampleEnvNoLocator : ScanEnv :=
  { sampleEnv with waitedReport := fun _ => some (.obj [("status", .str "completed")]) }

/-- A discovered scan whose status is `scheduled`. -/
def scheduledScan : ScanData :=
  ⟨some "s2", some "t2", some "scheduled", some "desc2", some "", []⟩

/-- A discovered scan whose status is `completed`. -/
def completedScan : ScanData :=
  ⟨some "s1", some "t1", some "completed", some "desc1", some "", []⟩

/-- Witness for C3 at concrete poll streams: `failed` and `cancelled`
end immediately, and a first `running` response continues polling. -/
theorem c3_witness :
    waitForReport (pollsOf [.payload (some "failed")]) 10 = (none, 1) ∧
    waitForReport (pollsOf [.payload (some "cancelled")]) 10 = (none, 1) ∧
    waitForReport (pollsOf [.payload (some "running"),
        .payload (some "completed")]) 10
      = ((waitForReport
            (fun i => pollsOf [.payload (some "running"),
              .payload (some "completed")] (i + 1)) 9).1,
         (waitForReport
            (fun i => pollsOf [.payload (some "running"),
              .payload (some "completed")] (i + 1)) 9).2 + 1) :=
  ⟨c3_report_polling.2.2.1 _ 9 rfl,
   c3_report_polling.2.2.2.1 _ 9 rfl,
   c3_report_polling.2.2.2.2 _ 9 (some "running")
     (Or.inr ⟨rfl, by decide, by decide, by decide⟩)⟩

/-- C2: a discovered scan whose `scan_id` is already in the Processed
Set, or whose status is not exactly `completed` (`scheduled`
included), yields no `ScanResult`, never reaches
`api.generate_report`, and leaves the run's batch exactly as if the
scan were absent (the Processed Set is read, never written, by
per-scan processing). -/
theorem c2_skip_ineligible :
    ∀ (processed : Finset String) (env : ScanEnv) (scan : ScanData)
      (sid : String),
    scan.scan_id = some sid →
    (sid ∈ processed ∨ scan.status ≠ some "completed") →
    (generateScanReport processed env scan).result = none ∧
    (generateScanReport processed env scan).calledGenerateReport = false ∧
    ∀ rest, processScans processed env (.ok (scan :: rest))
          = processScans processed env (.ok rest) := by
  intro processed env scan sid hsid hskip
  have hg : generateScanReport processed env scan = ⟨none, false, false⟩ := by
    unfold generateScanReport
    simp only [hsid, Option.getD_some]
    split_ifs with h1 h2 h3 h4
    · rfl
    · rfl
    · rfl
    · rfl
    · rcases hskip with hmem | hst
      · exact absurd hmem h2
      · exact absurd hst h4
  refine ⟨by rw [hg], by rw [hg], ?_⟩
  intro rest
  simp [processScans, hg]

/-- Witness for C2: an already-processed completed scan and a
scheduled scan are both skipped, with an unchanged batch. -/
theorem c2_witness :
    ((generateScanReport {"s1"} sampleEnv completedScan).result = none ∧
      processScans {"s1"} sampleEnv (.ok [completedScan])
        = processScans {"s1"} sampleEnv (.ok [])) ∧
    ((generateScanReport ∅ sampleEnv scheduledScan).result = none ∧
      processScans ∅ sampleEnv (.ok [scheduledScan])
        = processScans ∅ sampleEnv (.ok [])) := by
  have h1 := c2_skip_ineligible {"s1"} sampleEnv completedScan "s1" rfl
    (Or.inl (Finset.mem_singleton_self "s1"))
  have h2 := c2_skip_ineligible ∅ sampleEnv scheduledScan "s2" rfl
    (Or.inr (by decide))
  exact ⟨⟨h1.1, h1.2.2 []⟩, ⟨h2.1, h2.2.2 []⟩⟩

/-- C9: a transport failure while listing scans aborts the whole run
with a `ScanProcessorError`; otherwise the run's results are exactly
the per-scan outcomes collected in order, and a scan whose processing
fails (yields no result) leaves the run equal to the run without that
scan — every remaining scan is still processed. -/
theorem c9_failure_isolation :
    (∀ (processed : Finset String) (env : ScanEnv) (e : String),
      processScans processed env (.error e)
        = .error ⟨"Failed to process scans: " ++ e⟩) ∧
    (∀ (processed : Finset String) (env : ScanEnv) (scans : List ScanData),
      processScans processed env (.ok scans)
        = .ok (scans.filterMap
            (fun s => (generateScanReport processed env s).result))) ∧
    (∀ (processed : Finset String) (env : ScanEnv)
       (pre post : List ScanData) (bad : ScanData),
      (generateScanReport processed env bad).result = none →
      processScans processed env (.ok (pre ++ bad :: post))
        = processScans processed env (.ok (pre ++ post))) := by
  refine ⟨fun _ _ _ => rfl, fun _ _ _ => rfl, ?_⟩
  intro processed env pre post bad hbad
  simp [processScans, List.filterMap_append, hbad]

/-- Witness for C9: a failing (scheduled) scan between two other
scans drops out of the run without affecting the others. -/
theorem c9_witness :
    processScans ∅ sampleEnv (.ok [completedScan, scheduledScan, completedScan])
      = processScans ∅ sampleEnv (.ok [completedScan, completedScan]) :=
  c9_failure_isolation.2.2 ∅ sampleEnv [completedScan] [completedScan]
    scheduledScan (by rfl)

lemma commitFoldl_processed :
    ∀ (batch : List ScanResult) (st : StoreState),
    (batch.foldl (fun s r => markAsProcessed s r.scan_id) st).processed
      = st.processed ∪ (batch.map (fun r => r.scan_id)).toFinset := by
  intro batch
  induction batch with
  | nil => intro st; simp
  | cons r rs ih =>
    intro st
    simp only [List.foldl_cons, List.map_cons, List.toFinset_cons]
    rw [ih, markAsProcessed_processed]
    ext x
    simp only [Finset.mem_union, Finset.mem_insert, List.mem_toFinset]
    tauto

/-- C1: the commit step of `main`: on notification failure the store
state (set and file) is completely unchanged; on notification success
the Processed Set becomes the old set plus every scan_id of the
batch; and a scan_id is in the resulting set if and only if it was
already there or it belonged to the batch of a successful
notification. -/
theorem c1_commit_iff_notified :
    (∀ (st : StoreState) (batch : List ScanResult),
      commitBatch st batch false = st) ∧
    (∀ (st : StoreState) (batch : List ScanResult),
      (commitBatch st batch true).processed
        = st.processed ∪ (batch.map (fun r => r.scan_id)).toFinset) ∧
    (∀ (st : StoreState) (batch : List ScanResult) (sent : Bool)
       (id : String),
      id ∈ (commitBatch st batch sent).processed ↔
        id ∈ st.processed ∨
          (sent = true ∧ id ∈ batch.map (fun r => r.scan_id))) := by
  have htrue : ∀ (st : StoreState) (batch : List ScanResult),
      (commitBatch st batch true).processed
        = st.processed ∪ (batch.map (fun r => r.scan_id)).toFinset := by
    intro st batch
    rw [show commitBatch st batch true
        = batch.foldl (fun s r => markAsProcessed s r.scan_id) st from rfl]
    exact commitFoldl_processed batch st
  refine ⟨fun _ _ => rfl, htrue, ?_⟩
  intro st batch sent id
  cases sent
  · simp [commitBatch]
  · rw [htrue st batch]
    simp [List.mem_toFinset]

/-- C5: locator extraction from a completed report payload follows
the source's probing order — string `download` field first, then the
first element of a `download` list (the string itself, or a dict's
`url` field), then `download_url`, then the payload's `report_id` —
and when no probe yields a locator the scan is a hard failure: the
pipeline stops before any download and produces no `ScanResult`. -/
theorem c5_locator_extraction :
    extractDownloadUrl
      (.obj [("download", .str "u1"), ("download_url", .str "u2")])
      = some (.str "u1") ∧
    extractDownloadUrl
      (.obj [("download", .arr [.str "u3"]), ("download_url", .str "u2")])
      = some (.str "u3") ∧
    extractDownloadUrl
      (.obj [("download", .arr [.obj [("url", .str "u4")]]),
        ("download_url", .str "u2")])
      = some (.str "u4") ∧
    extractDownloadUrl
      (.obj [("download_url", .str "u2"), ("report_id", .str "r9")])
      = some (.str "u2") ∧
    extractDownloadUrl (.obj [("report_id", .str "r9")])
      = some (.str "r9") ∧
    extractDownloadUrl (.obj [("status", .str "completed")]) = none ∧
    (∀ (processed : Finset String) (env : ScanEnv) (scan : ScanData)
       (sid tid : String) (rd : List (String × Json)) (rid report : Json),
      scan.scan_id = some sid → sid ≠ "" →
      scan.target_id = some tid → tid ≠ "" →
      sid ∉ processed → scan.status = some "completed" →
      env.generateReport tid = .ok rd →
      getField rd "report_id" = some rid → rid.truthy = true →
      env.waitedReport rid = some report → report.truthy = true →
      extractDownloadUrl report = none →
      (generateScanReport processed env scan).result = none ∧
      (generateScanReport processed env scan).calledDownload = false) := by
  refine ⟨rfl, rfl, rfl, rfl, rfl, rfl, ?_⟩
  intro processed env scan sid tid rd rid report hsid hsne htid htne hmem hst
    hgen hrid htruthy hwait hrep hext
  have hg : generateScanReport processed env scan = ⟨none, true, false⟩ := by
    unfold generateScanReport
    simp only [hsid, htid, Option.getD_some]
    rw [if_neg (by simp [truthyStr, hsne, htne])]
    rw [if_neg hmem, if_neg (by simp [hst]), if_neg (by simp [hst])]
    rw [hgen]
    simp only [hrid, htruthy]
    rw [hwait]
    simp only [hrep, hext]
    rfl
  rw [hg]
  exact ⟨rfl, rfl⟩

/-- Witness for C5: a completed scan whose awaited report payload has
no locator field of any shape yields no `ScanResult` and no download. -/
theorem c5_witness :
    (generateScanReport ∅ sampleEnvNoLocator completedScan).result = none ∧
    (generateScanReport ∅ sampleEnvNoLocator completedScan).calledDownload
      = false :=
  c5_locator_extraction.2.2.2.2.2.2 ∅ sampleEnvNoLocator completedScan
    "s1" "t1" [("report_id", .str "r1")] (.str "r1")
    (.obj [("status", .str "completed")])
    rfl (by decide) rfl (by decide) (Finset.not_mem_empty "s1") rfl
    rfl rfl (by decide) rfl (by decide) rfl

lemma makeRequestGo_allFail (attempts : Nat → AttemptOutcome) (total : Nat) :
    ∀ (fuel attempt : Nat) (lastMsg : String),
    (∀ i, attempt ≤ i → i < attempt + fuel → ∃ m, attempts i = .failure m) →
    ∃ m, makeRequestGo attempts total lastMsg attempt fuel
        = .error (.acunetixAPIError m) := by
  intro fuel
  induction fuel with
  | zero =>
    intro attempt lastMsg _
    exact ⟨_, rfl⟩
  | succ n ih =>
    intro attempt lastMsg hall
    obtain ⟨m, hm⟩ := hall attempt le_rfl (by omega)
    show ∃ m, makeRequestGo attempts total lastMsg attempt (n + 1) = _
    unfold makeRequestGo
    rw [hm]
    exact ih (attempt + 1) m (fun i h1 h2 => hall i (by omega) (by omega))

/-- C8 as amended: requesting report generation with an empty target
identifier raises `ValueError` (not the remote-service error), before
any request is made; when the identifier is non-empty and the service
rejects every one of the `max_retries + 1` attempts, it fails with
`AcunetixAPIError` (the spec's `RemoteServiceError`). -/
theorem c8_amended_generate_report_errors :
    (∀ (attempts : Nat → AttemptOutcome) (maxRetries : Nat),
      generate_report attempts maxRetries ""
        = .error (.valueError "target_id cannot be empty")) ∧
    (∀ (attempts : Nat → AttemptOutcome) (maxRetries : Nat) (tid : String),
      tid ≠ "" →
      (∀ i, i ≤ maxRetries → ∃ m, attempts i = .failure m) →
      ∃ m, generate_report attempts maxRetries tid
          = .error (.acunetixAPIError m)) := by
  refine ⟨fun _ _ => rfl, ?_⟩
  intro attempts maxRetries tid htid hall
  unfold generate_report makeRequest
  rw [if_neg htid]
  exact makeRequestGo_allFail attempts (maxRetries + 1) (maxRetries + 1) 0
    "None" (fun i h1 h2 => hall i (by omega))

/-- Witness for the amended C8: with every attempt failing, a
non-empty target id ends in `AcunetixAPIError`. -/
theorem c8_amended_witness :
    ∃ m, generate_report (fun _ => .failure "boom") 2 "t1"
        = .error (.acunetixAPIError m) :=
  c8_amended_generate_report_errors.2 (fun _ => .failure "boom") 2 "t1"
    (by decide) (fun i _ => ⟨"boom", rfl⟩)

/-- Counterexample to C8 as stated: for the empty target identifier
the code raises `ValueError("target_id cannot be empty")`, which is
not the spec's `RemoteServiceError` (`AcunetixAPIError`). -/
theorem c8_counterexample_empty_id :
    generate_report (fun _ => .failure "connection refused") 3 ""
      = .error (.valueError "target_id cannot be empty") ∧
    isRemoteServiceError
      (generate_report (fun _ => .failure "connection refused") 3 "")
      = false :=
  ⟨rfl, rfl⟩

/-- Witness for C1 at a concrete store state and batch. -/
theorem c1_witness :
    commitBatch ⟨{"a"}, none, 0⟩ [⟨"s1", "t1", "d", "", "p", []⟩] false
      = ⟨{"a"}, none, 0⟩ ∧
    ("s1" ∈ (commitBatch ⟨{"a"}, none, 0⟩
        [⟨"s1", "t1", "d", "", "p", []⟩] true).processed ↔
      "s1" ∈ ({"a"} : Finset String) ∨
        (true = true ∧ "s1" ∈ ([⟨"s1", "t1", "d", "", "p", []⟩]
          : List ScanResult).map (fun r => r.scan_id))) :=
  ⟨c1_commit_iff_notified.1 ⟨{"a"}, none, 0⟩ [⟨"s1", "t1", "d", "", "p", []⟩],
   c1_commit_iff_notified.2.2 ⟨{"a"}, none, 0⟩
     [⟨"s1", "t1", "d", "", "p", []⟩] true "s1"⟩

/-- Witness for C6 at a concrete description containing separators. -/
theorem c6_witness :
    '/' ∉ (safeName "a/b\\c").data ∧ '\\' ∉ (safeName "a/b\\c").data :=
  c6_filename_sanitization.2 "a/b\\c"

/-- Witness for C7 at a concrete stored array. -/
theorem c7_witness :
    loadProcessedScans (.stored ["x", "y"])
      = (["x", "y"] : List String).toFinset :=
  c7_load_never_fails.2.2 ["x", "y"]

end Acunetix
